import Mathlib

/-!
Shallow embedding of the token lifecycle core of the FastAPI JWT
authentication service (`src/main.py`, `src/models.py`).

Modelling conventions:
- Machine time (`int(time.time())` / `datetime.utcnow()`) is a single integer
  parameter `now`; `timedelta(minutes = m)` is `60 * m` seconds and
  `timedelta(days = d)` is `86400 * d` seconds.
- A signed JWT is a `Jwt`: its decoded payload plus a flag `sigValid` saying
  whether it verifies under this process's public key (abstracting RS256).
  An absent / empty token string is `Option.none`.
- `jwt.decode` of the `python-jose` library is `jwtDecode`: it checks the
  signature, then `nbf`, then `exp`, then the `aud` claim, in that order,
  raising a distinct error for each.  The audience validation runs whether or
  not an audience argument is passed: with none, `_validate_aud` compares the
  token's `aud` claim against `None` and raises `Invalid audience` for every
  aud-bearing token — and every token this application issues carries `aud`
  (the `Payload.aud` field is accordingly mandatory in this model).
- The module-level mutable sets `_revoked_jtis` and `_valid_refresh_jtis`
  and the database `tokens` table are gathered into `AuthState`; Python sets
  are modelled as lists used only through membership, insertion and removal.
  Every operation is written state-passing: it returns its result together
  with the `AuthState` it leaves behind, so frame properties are expressible.
- `create_access_token_for_user`'s `extra` parameter is omitted: no caller in
  the repository passes it.  The `Token` columns `created_at` and `meta` are
  omitted: nothing in the core reads them.
-/

/-- Configured issuer, default of `os.getenv("JWT_ISSUER", "myblogapp.com")`. -/
def ISSUER : String := "myblogapp.com"

/-- Configured audience, default of `os.getenv("JWT_AUDIENCE", "myblogapp_users")`. -/
def AUDIENCE : String := "myblogapp_users"

/-- Default access-token lifetime in minutes (`ACCESS_TOKEN_EXP_MIN`). -/
def ACCESS_TOKEN_EXP_MIN : Int := 15

/-- Default refresh-token lifetime in days (`REFRESH_TOKEN_EXP_DAYS`). -/
def REFRESH_TOKEN_EXP_DAYS : Int := 30

/-- Python `x or d` on an optional integer: `None` and `0` are falsy. -/
def pyOrInt (x : Option Int) (d : Int) : Int :=
  match x with
  | none => d
  | some v => if v = 0 then d else v

/-- Decidable equality for `Except`, so that concrete runs of the endpoint
embeddings can be settled by `decide`. -/
instance {ε α : Type} [DecidableEq ε] [DecidableEq α] : DecidableEq (Except ε α) := fun a b =>
  match a, b with
  | .error e, .error f =>
    if h : e = f then isTrue (by rw [h]) else isFalse (by simp [h])
  | .ok x, .ok y =>
    if h : x = y then isTrue (by rw [h]) else isFalse (by simp [h])
  | .error _, .ok _ => isFalse (by simp)
  | .ok _, .error _ => isFalse (by simp)

/-- A row of the `users` table together with its `permissions` relationship
(`models.User` / `models.UserPermission`); `permissions` is the list of
`UserPermission.permission` strings.  `User` has no `name` column, so
`getattr(user, "name", user.username)` always yields `username`. -/
structure UserRec where
  id : Int
  username : String
  email : Option String
  role : String
  permissions : List String
deriving DecidableEq, Repr

/-- The decoded JWT payload dictionary.  Fields that appear only in access
tokens are `Option`s whose `none` means the key is absent from the dict;
`email` is doubly optional because the key is present in access tokens with a
possibly-`None` value. -/
structure Payload where
  iss : String
  sub : String
  aud : String
  iat : Int
  nbf : Int
  exp : Int
  jti : String
  type : String
  user_id : Option Int
  email : Option (Option String)
  role : Option String
  name : Option String
  permissions : Option (List String)
deriving DecidableEq, Repr

/-- A signed token string: its payload and whether its signature verifies
under this process's public key with the expected algorithm. -/
structure Jwt where
  payload : Payload
  sigValid : Bool
deriving DecidableEq, Repr

/-- A row of the `tokens` table (`models.Token`). -/
structure TokenRecord where
  user_id : Int
  jti : String
  token_type : String
  expires_at : Int
  revoked : Bool
deriving DecidableEq, Repr

/-- The shared mutable state: the two module-level revocation sets of
`main.py` and the database `tokens` table. -/
structure AuthState where
  revokedJtis : List String
  validRefreshJtis : List String
  store : List TokenRecord
deriving DecidableEq, Repr

/-- The dict returned by the two issuance functions. -/
structure IssueResult where
  token : Jwt
  jti : String
  exp : Int
deriving DecidableEq, Repr

/-- The distinct rejections `verify_jwt_token_strict` can raise, one per
`HTTPException` detail string (`invalidSignature`, `notYetValid` and
`invalidAudience` are the `JWTError` cases, each carrying its own message in
`Token invalid: ...`). -/
inductive Rejection where
  | missingToken
  | invalidSignature
  | notYetValid
  | expired
  | invalidAudience
  | invalidIssuer
  | revoked
deriving DecidableEq, Repr

/-- Embedding of `create_access_token_for_user` (src/main.py:70-100): builds
the access claim set, signs it, and appends a `Token` record to the store.
The fresh `jti` (`uuid4`) and the clock reading are parameters. -/
def create_access_token_for_user (user : UserRec) (now : Int) (jti : String)
    (expires_minutes : Option Int) (s : AuthState) : IssueResult × AuthState :=
  let expires : Int := now + 60 * pyOrInt expires_minutes ACCESS_TOKEN_EXP_MIN
  let payload : Payload :=
    { iss := ISSUER
      sub := "user_" ++ toString user.id
      aud := AUDIENCE
      iat := now
      nbf := now
      exp := expires
      jti := jti
      type := "access"
      user_id := some user.id
      email := some user.email
      role := some user.role
      name := some user.username
      permissions := some (if user.permissions = [] then ["read_post"] else user.permissions) }
  let token : Jwt := { payload := payload, sigValid := true }
  let token_rec : TokenRecord :=
    { user_id := user.id, jti := jti, token_type := "access", expires_at := expires, revoked := false }
  ({ token := token, jti := jti, exp := expires }, { s with store := s.store ++ [token_rec] })

/-- Embedding of `create_refresh_token_for_user` (src/main.py:103-127):
builds the refresh claim set (which carries `user_id` but none of `email`,
`role`, `name`, `permissions`), signs it, appends a `Token` record, and adds
the `jti` to `_valid_refresh_jtis`. -/
def create_refresh_token_for_user (user : UserRec) (now : Int) (jti : String)
    (expires_days : Option Int) (s : AuthState) : IssueResult × AuthState :=
  let expires : Int := now + 86400 * pyOrInt expires_days REFRESH_TOKEN_EXP_DAYS
  let payload : Payload :=
    { iss := ISSUER
      sub := "user_" ++ toString user.id
      aud := AUDIENCE
      iat := now
      nbf := now
      exp := expires
      jti := jti
      type := "refresh"
      user_id := some user.id
      email := none
      role := none
      name := none
      permissions := none }
  let token : Jwt := { payload := payload, sigValid := true }
  let token_rec : TokenRecord :=
    { user_id := user.id, jti := jti, token_type := "refresh", expires_at := expires, revoked := false }
  ({ token := token, jti := jti, exp := expires },
   { s with store := s.store ++ [token_rec], validRefreshJtis := s.validRefreshJtis ++ [jti] })

/-- Embedding of `jose.jwt.decode(token, PUBLIC_KEY, algorithms=[ALGORITHM])`
with an optional `audience` argument: signature first, then the `nbf` and
`exp` time bounds, then the audience validation.  `_validate_aud` runs even
when no audience argument is supplied: the token's `aud` claim (always
present on this application's tokens, hence mandatory in `Payload`) is then
compared against `None`, which is never among the audience claims, so the
decode raises `Invalid audience` for every such token. -/
def jwtDecode (tok : Jwt) (now : Int) (audience : Option String) : Except Rejection Payload :=
  if !tok.sigValid then .error .invalidSignature
  else if now < tok.payload.nbf then .error .notYetValid
  else if tok.payload.exp < now then .error .expired
  else
    match audience with
    | some aud => if tok.payload.aud = aud then .ok tok.payload else .error .invalidAudience
    | none => .error .invalidAudience

/-- Embedding of `verify_jwt_token_strict` (src/main.py:131-152): missing
token, then `jwt.decode` (signature / time bounds / audience when
`check_audience`), then the issuer check when `check_issuer`, then the
in-memory revocation check against `_revoked_jtis`.  Returned alongside the
(unchanged) state to express the frame property. -/
def verify_jwt_token_strict (token : Option Jwt) (now : Int)
    (check_audience check_issuer : Bool) (s : AuthState) :
    Except Rejection Payload × AuthState :=
  match token with
  | none => (.error .missingToken, s)
  | some tok =>
    match jwtDecode tok now (if check_audience then some AUDIENCE else none) with
    | .error e => (.error e, s)
    | .ok payload =>
      if check_issuer ∧ payload.iss ≠ ISSUER then (.error .invalidIssuer, s)
      else if payload.jti ∈ s.revokedJtis then (.error .revoked, s)
      else (.ok payload, s)

/-- Looks up `db.query(User).filter(User.id == user_id).first()`; a payload
with no `user_id` key compares `User.id == None`, matching nothing. -/
def findUser (users : List UserRec) (user_id : Option Int) : Option UserRec :=
  match user_id with
  | none => none
  | some uid => users.find? (fun u => u.id == uid)

/-- The outcomes of the `/token/refresh` endpoint.  `typeError` is the
`TypeError` Python raises at src/main.py:245: `create_access_token_for_user`
is called without its required keyword-only argument `db`, so the exception
escapes to the global handler and no token pair is ever produced. -/
inductive RotateError where
  | missingRefreshToken
  | verifyFailed (r : Rejection)
  | notARefreshToken
  | invalidOrRevoked
  | userNotFound
  | typeError
deriving DecidableEq, Repr

/-- Embedding of the `/token/refresh` endpoint `refresh_token`
(src/main.py:219-253): extract the token, verify it strictly, require
`type == "refresh"`, require the jti in `_valid_refresh_jtis`, then retire
the old jti (remove from `_valid_refresh_jtis`, add to `_revoked_jtis` — the
store row is not touched), look up the user, and finally call
`create_access_token_for_user(user=user)`, which raises `TypeError` because
the required `db` argument is missing; the set mutations made before the
raise persist, being module-level globals. -/
def refresh_token (token : Option Jwt) (now : Int) (users : List UserRec)
    (s : AuthState) : Except RotateError (IssueResult × IssueResult) × AuthState :=
  match token with
  | none => (.error .missingRefreshToken, s)
  | some tok =>
    match verify_jwt_token_strict (some tok) now true true s with
    | (.error e, _) => (.error (.verifyFailed e), s)
    | (.ok payload, _) =>
      if payload.type ≠ "refresh" then (.error .notARefreshToken, s)
      else
        let old_jti := payload.jti
        if old_jti ∉ s.validRefreshJtis then (.error .invalidOrRevoked, s)
        else
          let s₁ : AuthState :=
            { s with validRefreshJtis := s.validRefreshJtis.erase old_jti
                     revokedJtis := s.revokedJtis ++ [old_jti] }
          match findUser users payload.user_id with
          | none => (.error .userNotFound, s₁)
          | some _user => (.error .typeError, s₁)

/-- Flips `revoked` to `true` on the first store row whose `jti` matches,
mirroring `db.query(Token).filter(Token.jti == j).first()` followed by
`row.revoked = True; db.commit()`. -/
def markRevokedFirst : List TokenRecord → String → List TokenRecord
  | [], _ => []
  | r :: rs, j => if r.jti == j then { r with revoked := true } :: rs else r :: markRevokedFirst rs j

/-- The response of the `/logout` endpoint: a 302 redirect plus the cookies
it deletes. -/
structure LogoutResponse where
  redirectTo : String
  deletedCookies : List String
deriving DecidableEq, Repr

/-- Embedding of the `/logout` endpoint (src/main.py:259-283).  When a
refresh-token cookie is present, the endpoint decodes the refresh token and
then the access token inside one `try` block; `jwt.decode` of an absent or
undecodable access token raises, the bare `except: pass` swallows it, and no
store row is revoked.  Only when both decodes succeed are the two store rows
(refresh first, then access) marked revoked; the in-memory sets are never
touched.  The response is always the redirect deleting both cookies. -/
def logout (refresh access : Option Jwt) (now : Int) (s : AuthState) :
    LogoutResponse × AuthState :=
  let s' : AuthState :=
    match refresh with
    | none => s
    | some rtok =>
      match jwtDecode rtok now (some AUDIENCE) with
      | .error _ => s
      | .ok ref_payload =>
        match access with
        | none => s
        | some atok =>
          match jwtDecode atok now (some AUDIENCE) with
          | .error _ => s
          | .ok access_payload =>
            let s₁ :=
              if (s.store.find? (fun r => r.jti == ref_payload.jti)).isSome
              then { s with store := markRevokedFirst s.store ref_payload.jti } else s
            if (s₁.store.find? (fun r => r.jti == access_payload.jti)).isSome
            then { s₁ with store := markRevokedFirst s₁.store access_payload.jti } else s₁
  ({ redirectTo := "/", deletedCookies := ["access_token", "refresh_token"] }, s')

/-- The outcomes of the `/admin/revoke` endpoint, one per `HTTPException`. -/
inductive AdminRevokeError where
  | notAuthenticated
  | verifyFailed (r : Rejection)
  | adminsOnly
  | tokenNotFound
deriving DecidableEq, Repr

/-- Embedding of the `/admin/revoke` endpoint `admin_revoke`
(src/main.py:311-328): require the access-token cookie, verify it strictly,
require `role == "admin"`, look up the store row by jti (404 when absent),
and set its `revoked` flag to `true`.  Success redirects to `/admin/tokens`. -/
def admin_revoke (token_jti : String) (cookie : Option Jwt) (now : Int)
    (s : AuthState) : Except AdminRevokeError Unit × AuthState :=
  match cookie with
  | none => (.error .notAuthenticated, s)
  | some tok =>
    match verify_jwt_token_strict (some tok) now true true s with
    | (.error e, _) => (.error (.verifyFailed e), s)
    | (.ok payload, _) =>
      if payload.role ≠ some "admin" then (.error .adminsOnly, s)
      else
        match s.store.find? (fun r => r.jti == token_jti) with
        | none => (.error .tokenNotFound, s)
        | some _ => (.ok (), { s with store := markRevokedFirst s.store token_jti })

/-- Test user matching the spec scenario: `alice`, id 1, no explicit
permissions, default role. -/
def alice : UserRec :=
  { id := 1, username := "alice", email := none, role := "user", permissions := [] }

/-- The state of a freshly started process: empty sets, empty store. -/
def s0 : AuthState := { revokedJtis := [], validRefreshJtis := [], store := [] }

/-- Alice's login at time 1000: the issued access token (jti `a1`). -/
def loginAccess : IssueResult × AuthState :=
  create_access_token_for_user alice 1000 "a1" none s0

/-- Alice's login at time 1000: the issued refresh token (jti `r1`), issued
after the access token as in `login_user`. -/
def loginRefresh : IssueResult × AuthState :=
  create_refresh_token_for_user alice 1000 "r1" none loginAccess.2

/-- The state after presenting alice's fresh refresh token to the
`/token/refresh` endpoint at time 1001. -/
def sAfterFirstRotate : AuthState :=
  (refresh_token (some loginRefresh.1.token) 1001 [alice] loginRefresh.2).2

/-- The state after alice, holding both cookies, hits `/logout` at time
1001. -/
def sAfterLogout : AuthState :=
  (logout (some loginRefresh.1.token) (some loginAccess.1.token) 1001 loginRefresh.2).2

/-- Alice's access token with its signature broken (signed by another key). -/
def tokBadSig : Jwt := { loginAccess.1.token with sigValid := false }

/-- Alice's access token reissued for a different audience. -/
def tokBadAud : Jwt :=
  { loginAccess.1.token with
      payload := { loginAccess.1.token.payload with aud := "other_app" } }

/-- Alice's access token reissued by a different issuer. -/
def tokBadIss : Jwt :=
  { loginAccess.1.token with
      payload := { loginAccess.1.token.payload with iss := "evil.example" } }

/-- A state in which alice's access jti `a1` is in the revoked set. -/
def sRev1 : AuthState := { revokedJtis := ["a1"], validRefreshJtis := [], store := [] }

/-- An administrator's valid access-token cookie. -/
def adminTok : Jwt :=
  { payload :=
      { iss := ISSUER, sub := "user_2", aud := AUDIENCE, iat := 0, nbf := 0,
        exp := 100000, jti := "adm1", type := "access", user_id := some 2,
        email := some none, role := some "admin", name := some "root",
        permissions := some ["read_post"] },
    sigValid := true }

/-- A state whose store holds one already-revoked record with jti `t1`. -/
def sRevokedStore : AuthState :=
  { revokedJtis := [], validRefreshJtis := [],
    store := [{ user_id := 1, jti := "t1", token_type := "access",
                expires_at := 100000, revoked := true }] }

/-- Characterisation of a fully successful strict verification. -/
theorem verify_ok_char (tok : Jwt) (now : Int) (s : AuthState)
    (hsig : tok.sigValid = true) (hnbf : tok.payload.nbf ≤ now)
    (hexp : now ≤ tok.payload.exp) (haud : tok.payload.aud = AUDIENCE)
    (hiss : tok.payload.iss = ISSUER) (hnotrev : tok.payload.jti ∉ s.revokedJtis) :
    verify_jwt_token_strict (some tok) now true true s = (.ok tok.payload, s) := by
  simp [verify_jwt_token_strict, jwtDecode, hsig, haud, hiss, hnotrev,
    not_lt.mpr hnbf, not_lt.mpr hexp]

/-- Strict verification of a token whose jti is in the revoked set, all
earlier checks passing, fails with `revoked`. -/
theorem verify_revoked_char (tok : Jwt) (now : Int) (s : AuthState)
    (hsig : tok.sigValid = true) (hnbf : tok.payload.nbf ≤ now)
    (hexp : now ≤ tok.payload.exp) (haud : tok.payload.aud = AUDIENCE)
    (hiss : tok.payload.iss = ISSUER) (hrev : tok.payload.jti ∈ s.revokedJtis) :
    verify_jwt_token_strict (some tok) now true true s = (.error .revoked, s) := by
  simp [verify_jwt_token_strict, jwtDecode, hsig, haud, hiss, hrev,
    not_lt.mpr hnbf, not_lt.mpr hexp]

/-- A rotation call that passes verification, the type check and the
valid-set check leaves exactly the retired state behind, whichever way the
user lookup and the subsequent `TypeError` go. -/
theorem rotate_retires (tok : Jwt) (now : Int) (users : List UserRec) (s : AuthState)
    (hsig : tok.sigValid = true) (hnbf : tok.payload.nbf ≤ now)
    (hexp : now ≤ tok.payload.exp) (haud : tok.payload.aud = AUDIENCE)
    (hiss : tok.payload.iss = ISSUER) (hnotrev : tok.payload.jti ∉ s.revokedJtis)
    (htype : tok.payload.type = "refresh")
    (hvalid : tok.payload.jti ∈ s.validRefreshJtis) :
    (refresh_token (some tok) now users s).2 =
      { s with validRefreshJtis := s.validRefreshJtis.erase tok.payload.jti
               revokedJtis := s.revokedJtis ++ [tok.payload.jti] } := by
  simp only [refresh_token, verify_ok_char tok now s hsig hnbf hexp haud hiss hnotrev]
  simp only [htype, hvalid]
  simp only [ne_eq, not_true_eq_false, if_false, not_false_eq_true, if_true]
  cases findUser users tok.payload.user_id <;> rfl

/-- C1: the claim states that presenting a valid, unexpired, never-rotated
refresh token to the rotation endpoint succeeds and returns a new token
pair for the same user.  Evaluating the embedded endpoint at exactly such an
input shows what the code does instead: after retiring the old jti it hits
the call `create_access_token_for_user(user=user)` that lacks the required
`db` argument, raising `TypeError`, so no pair is produced and the caller
sees an error — while the old refresh token is already dead. -/
theorem C1_rotate_raises_on_fresh_token :
    refresh_token (some loginRefresh.1.token) 1001 [alice] loginRefresh.2 =
      (.error .typeError,
       { revokedJtis := ["r1"], validRefreshJtis := [],
         store := [{ user_id := 1, jti := "a1", token_type := "access",
                     expires_at := 1900, revoked := false },
                   { user_id := 1, jti := "r1", token_type := "refresh",
                     expires_at := 2593000, revoked := false }] }) := by
  decide

/-- C2 counterexample: replaying alice's original refresh token after its
rotation-path retirement is rejected as `Revoked` by the verification step,
not as `InvalidOrRevoked` as the claim states. -/
theorem C2_counterexample :
    (refresh_token (some loginRefresh.1.token) 1002 [alice] sAfterFirstRotate).1
        = .error (.verifyFailed .revoked) ∧
    (refresh_token (some loginRefresh.1.token) 1002 [alice] sAfterFirstRotate).1
        ≠ .error .invalidOrRevoked := by
  decide

/-- C2 amended: a second rotate call presenting the same original token
always fails, but with the `Revoked` rejection raised by strict
verification — the rotation endpoint's own `InvalidOrRevoked` check is
unreachable for an already-rotated token, because retirement also put the
jti into `_revoked_jtis`. -/
theorem C2_replay_rejected_as_revoked
    (tok : Jwt) (now now₂ : Int) (users users₂ : List UserRec) (s : AuthState)
    (hsig : tok.sigValid = true) (hnbf : tok.payload.nbf ≤ now)
    (hexp : now ≤ tok.payload.exp) (haud : tok.payload.aud = AUDIENCE)
    (hiss : tok.payload.iss = ISSUER) (hnotrev : tok.payload.jti ∉ s.revokedJtis)
    (htype : tok.payload.type = "refresh")
    (hvalid : tok.payload.jti ∈ s.validRefreshJtis)
    (hnbf₂ : tok.payload.nbf ≤ now₂) (hexp₂ : now₂ ≤ tok.payload.exp) :
    (refresh_token (some tok) now₂ users₂
        ((refresh_token (some tok) now users s).2)).1
      = .error (.verifyFailed .revoked) := by
  rw [rotate_retires tok now users s hsig hnbf hexp haud hiss hnotrev htype hvalid]
  simp only [refresh_token]
  rw [verify_revoked_char tok now₂ _ hsig hnbf₂ hexp₂ haud hiss (by simp)]

/-- C2 amended, witnessed at the concrete scenario: rotating alice's token a
second time at time 1002 is rejected as `Revoked`. -/
theorem C2_replay_witness :
    (refresh_token (some loginRefresh.1.token) 1002 [alice]
        ((refresh_token (some loginRefresh.1.token) 1001 [alice] loginRefresh.2).2)).1
      = .error (.verifyFailed .revoked) :=
  C2_replay_rejected_as_revoked loginRefresh.1.token 1001 1002 [alice] [alice]
    loginRefresh.2 (by decide) (by decide) (by decide) (by decide) (by decide)
    (by decide) (by decide) (by decide) (by decide) (by decide)

/-- C3 counterexample: after the retirement step of a rotation of alice's
refresh token (jti `r1`), the jti has left `validRefreshJtis` and entered
`revokedJtis`, but the token's store record still has `revoked = false` —
the claimed `revoked = true` persistence in the Token Store never happens. -/
theorem C3_counterexample :
    "r1" ∉ sAfterFirstRotate.validRefreshJtis ∧
    "r1" ∈ sAfterFirstRotate.revokedJtis ∧
    (sAfterFirstRotate.store.find? (fun t => t.jti == "r1")).map TokenRecord.revoked
      = some false := by
  decide

/-- C3 amended: when rotation retires the old refresh token it removes the
tokenId from `validRefreshJtis` and adds it to `revokedJtis` before any new
token could be issued, but it leaves the Token Store untouched: the record's
`revoked` flag is not persisted as `true`. -/
theorem C3_retirement_updates_sets_not_store
    (tok : Jwt) (now : Int) (users : List UserRec) (s : AuthState)
    (hsig : tok.sigValid = true) (hnbf : tok.payload.nbf ≤ now)
    (hexp : now ≤ tok.payload.exp) (haud : tok.payload.aud = AUDIENCE)
    (hiss : tok.payload.iss = ISSUER) (hnotrev : tok.payload.jti ∉ s.revokedJtis)
    (htype : tok.payload.type = "refresh")
    (hvalid : tok.payload.jti ∈ s.validRefreshJtis) :
    (refresh_token (some tok) now users s).2.validRefreshJtis
        = s.validRefreshJtis.erase tok.payload.jti ∧
    (refresh_token (some tok) now users s).2.revokedJtis
        = s.revokedJtis ++ [tok.payload.jti] ∧
    (refresh_token (some tok) now users s).2.store = s.store := by
  rw [rotate_retires tok now users s hsig hnbf hexp haud hiss hnotrev htype hvalid]
  exact ⟨rfl, rfl, rfl⟩

/-- C3 amended, witnessed at the concrete scenario of alice's rotation. -/
theorem C3_retirement_witness :
    (refresh_token (some loginRefresh.1.token) 1001 [alice] loginRefresh.2).2.validRefreshJtis
        = loginRefresh.2.validRefreshJtis.erase loginRefresh.1.token.payload.jti ∧
    (refresh_token (some loginRefresh.1.token) 1001 [alice] loginRefresh.2).2.revokedJtis
        = loginRefresh.2.revokedJtis ++ [loginRefresh.1.token.payload.jti] ∧
    (refresh_token (some loginRefresh.1.token) 1001 [alice] loginRefresh.2).2.store
        = loginRefresh.2.store :=
  C3_retirement_updates_sets_not_store loginRefresh.1.token 1001 [alice] loginRefresh.2
    (by decide) (by decide) (by decide) (by decide) (by decide) (by decide)
    (by decide) (by decide)

/-- C4 counterexample: alice logs out with both cookies; both store rows are
marked `revoked = true` (the Logout revocation path has run), yet a
subsequent strict verification of her refresh token still succeeds, because
logout never adds the jtis to the in-memory `_revoked_jtis` set that
`verify_jwt_token_strict` consults. -/
theorem C4_counterexample :
    sAfterLogout.store.map TokenRecord.revoked = [true, true] ∧
    (verify_jwt_token_strict (some loginRefresh.1.token) 1002 true true sAfterLogout).1
      = .ok loginRefresh.1.token.payload := by
  decide

/-- C4 amended: after a tokenId is retired by the Rotation path, every
subsequent strict verification of a token carrying that tokenId whose
signature, time-bound, audience and issuer checks pass fails with `Revoked`;
the Logout path, by contrast, only flips the store flag, and such tokens
still verify. -/
theorem C4_rotation_revocation_blocks_verify
    (tok tok₂ : Jwt) (now now₂ : Int) (users : List UserRec) (s : AuthState)
    (hsig : tok.sigValid = true) (hnbf : tok.payload.nbf ≤ now)
    (hexp : now ≤ tok.payload.exp) (haud : tok.payload.aud = AUDIENCE)
    (hiss : tok.payload.iss = ISSUER) (hnotrev : tok.payload.jti ∉ s.revokedJtis)
    (htype : tok.payload.type = "refresh")
    (hvalid : tok.payload.jti ∈ s.validRefreshJtis)
    (hjti : tok₂.payload.jti = tok.payload.jti)
    (hsig₂ : tok₂.sigValid = true) (hnbf₂ : tok₂.payload.nbf ≤ now₂)
    (hexp₂ : now₂ ≤ tok₂.payload.exp) (haud₂ : tok₂.payload.aud = AUDIENCE)
    (hiss₂ : tok₂.payload.iss = ISSUER) :
    (verify_jwt_token_strict (some tok₂) now₂ true true
        ((refresh_token (some tok) now users s).2)).1 = .error .revoked := by
  rw [rotate_retires tok now users s hsig hnbf hexp haud hiss hnotrev htype hvalid]
  rw [verify_revoked_char tok₂ now₂ _ hsig₂ hnbf₂ hexp₂ haud₂ hiss₂ (by simp [hjti])]

/-- C4 amended, witnessed at the concrete scenario: after alice's refresh
token is retired by rotation at time 1001, verifying the very same token at
time 1002 fails with `Revoked`. -/
theorem C4_rotation_witness :
    (verify_jwt_token_strict (some loginRefresh.1.token) 1002 true true
        ((refresh_token (some loginRefresh.1.token) 1001 [alice] loginRefresh.2).2)).1
      = .error .revoked :=
  C4_rotation_revocation_blocks_verify loginRefresh.1.token loginRefresh.1.token
    1001 1002 [alice] loginRefresh.2 (by decide) (by decide) (by decide) (by decide)
    (by decide) (by decide) (by decide) (by decide) (by decide) (by decide)
    (by decide) (by decide) (by decide) (by decide)

/-- C5 counterexample: with the audience check disabled, a token that
passes every check the claim says is performed — valid signature, unexpired,
correct audience and issuer claims, jti not revoked — is still rejected at
the audience step, because `jwt.decode` without an audience argument
validates the `aud` claim against `None`; so the claimed "audience (if
enabled)" conditionality is false: the audience step cannot be disabled. -/
theorem C5_counterexample :
    (verify_jwt_token_strict (some loginAccess.1.token) 1100 false true s0).1
      = .error .invalidAudience ∧
    loginAccess.1.token.sigValid = true ∧
    loginAccess.1.token.payload.aud = AUDIENCE ∧
    loginAccess.1.token.payload.iss = ISSUER ∧
    loginAccess.1.token.payload.nbf ≤ 1100 ∧ (1100 : Int) ≤ loginAccess.1.token.payload.exp ∧
    loginAccess.1.token.payload.jti ∉ s0.revokedJtis := by
  decide

/-- C5 amended: `verify_jwt_token_strict` performs its checks in the fixed
order missing token, signature, expiry, audience, issuer (when enabled),
revocation, each with its own distinct rejection; the audience step runs
even when `check_audience` is disabled — the decode then validates the
`aud` claim against `None` and rejects every aud-bearing token — and a
token that is both expired and revoked is reported `Expired`, not
`Revoked`. -/
theorem C5_verify_check_order (tok : Jwt) (now : Int) (ca ci : Bool) (s : AuthState) :
    ((verify_jwt_token_strict none now ca ci s).1 = .error .missingToken) ∧
    (tok.sigValid = false →
      (verify_jwt_token_strict (some tok) now ca ci s).1 = .error .invalidSignature) ∧
    (tok.sigValid = true → tok.payload.nbf ≤ now → tok.payload.exp < now →
      (verify_jwt_token_strict (some tok) now ca ci s).1 = .error .expired) ∧
    (tok.sigValid = true → tok.payload.nbf ≤ now → tok.payload.exp < now →
      tok.payload.jti ∈ s.revokedJtis →
      (verify_jwt_token_strict (some tok) now ca ci s).1 = .error .expired) ∧
    (tok.sigValid = true → tok.payload.nbf ≤ now → now ≤ tok.payload.exp →
      tok.payload.aud ≠ AUDIENCE →
      (verify_jwt_token_strict (some tok) now true ci s).1 = .error .invalidAudience) ∧
    (tok.sigValid = true → tok.payload.nbf ≤ now → now ≤ tok.payload.exp →
      (verify_jwt_token_strict (some tok) now false ci s).1 = .error .invalidAudience) ∧
    (tok.sigValid = true → tok.payload.nbf ≤ now → now ≤ tok.payload.exp →
      tok.payload.aud = AUDIENCE → tok.payload.iss ≠ ISSUER →
      (verify_jwt_token_strict (some tok) now true true s).1 = .error .invalidIssuer) ∧
    (tok.sigValid = true → tok.payload.nbf ≤ now → now ≤ tok.payload.exp →
      tok.payload.aud = AUDIENCE → (ci = true → tok.payload.iss = ISSUER) →
      tok.payload.jti ∈ s.revokedJtis →
      (verify_jwt_token_strict (some tok) now true ci s).1 = .error .revoked) := by
  refine ⟨rfl, ?_, ?_, ?_, ?_, ?_, ?_, ?_⟩
  · intro h
    simp [verify_jwt_token_strict, jwtDecode, h]
  · intro h1 h2 h3
    simp [verify_jwt_token_strict, jwtDecode, h1, not_lt.mpr h2, h3]
  · intro h1 h2 h3 _
    simp [verify_jwt_token_strict, jwtDecode, h1, not_lt.mpr h2, h3]
  · intro h1 h2 h3 h4
    simp [verify_jwt_token_strict, jwtDecode, h1, not_lt.mpr h2, not_lt.mpr h3, h4]
  · intro h1 h2 h3
    simp [verify_jwt_token_strict, jwtDecode, h1, not_lt.mpr h2, not_lt.mpr h3]
  · intro h1 h2 h3 h4 h5
    simp [verify_jwt_token_strict, jwtDecode, h1, not_lt.mpr h2, not_lt.mpr h3, h4, h5]
  · intro h1 h2 h3 h4 h5 h6
    cases ci with
    | false =>
      simp [verify_jwt_token_strict, jwtDecode, h1, not_lt.mpr h2, not_lt.mpr h3, h4, h6]
    | true =>
      simp [verify_jwt_token_strict, jwtDecode, h1, not_lt.mpr h2, not_lt.mpr h3,
        h4, h5 rfl, h6]

/-- C5 witness: every rejection of the order theorem exercised at a concrete
token and state, including the disabled-audience rejection and the token
that is simultaneously expired and revoked and is reported `Expired`. -/
theorem C5_witness :
    (verify_jwt_token_strict none 100 true true s0).1 = .error .missingToken ∧
    (verify_jwt_token_strict (some tokBadSig) 1100 true true s0).1
      = .error .invalidSignature ∧
    (verify_jwt_token_strict (some loginAccess.1.token) 2000 true true s0).1
      = .error .expired ∧
    (verify_jwt_token_strict (some loginAccess.1.token) 2000 true true sRev1).1
      = .error .expired ∧
    (verify_jwt_token_strict (some tokBadAud) 1100 true true s0).1
      = .error .invalidAudience ∧
    (verify_jwt_token_strict (some tokBadAud) 1100 false true s0).1
      = .error .invalidAudience ∧
    (verify_jwt_token_strict (some tokBadIss) 1100 true true s0).1
      = .error .invalidIssuer ∧
    (verify_jwt_token_strict (some loginAccess.1.token) 1100 true true sRev1).1
      = .error .revoked :=
  ⟨(C5_verify_check_order tokBadSig 100 true true s0).1,
   (C5_verify_check_order tokBadSig 1100 true true s0).2.1 (by decide),
   (C5_verify_check_order loginAccess.1.token 2000 true true s0).2.2.1
     (by decide) (by decide) (by decide),
   (C5_verify_check_order loginAccess.1.token 2000 true true sRev1).2.2.2.1
     (by decide) (by decide) (by decide) (by decide),
   (C5_verify_check_order tokBadAud 1100 true true s0).2.2.2.2.1
     (by decide) (by decide) (by decide) (by decide),
   (C5_verify_check_order tokBadAud 1100 false true s0).2.2.2.2.2.1
     (by decide) (by decide) (by decide),
   (C5_verify_check_order tokBadIss 1100 true true s0).2.2.2.2.2.2.1
     (by decide) (by decide) (by decide) (by decide) (by decide),
   (C5_verify_check_order loginAccess.1.token 1100 true true sRev1).2.2.2.2.2.2.2
     (by decide) (by decide) (by decide) (by decide) (by decide) (by decide)⟩

/-- C6: strict verification is read-only — whatever the token, clock and
flag settings, it leaves the revocation sets and the Token Store exactly as
they were. -/
theorem C6_verify_is_read_only (token : Option Jwt) (now : Int) (ca ci : Bool)
    (s : AuthState) : (verify_jwt_token_strict token now ca ci s).2 = s := by
  cases token with
  | none => rfl
  | some tok =>
    simp only [verify_jwt_token_strict]
    cases jwtDecode tok now (if ca then some AUDIENCE else none) with
    | error e => rfl
    | ok p =>
      dsimp only
      split
      · rfl
      · split <;> rfl

/-- C7 counterexample: the refresh token issued for alice carries a
`user_id` claim (`payload.get("user_id")` is what the rotation endpoint
later reads), so the claim that a refresh token carries no `userId` field is
false. -/
theorem C7_counterexample :
    (create_refresh_token_for_user alice 1000 "r1" none s0).1.token.payload.user_id
      = some 1 ∧
    (create_refresh_token_for_user alice 1000 "r1" none s0).1.token.payload.user_id
      ≠ none := by
  decide

/-- C7 amended: every issued refresh token's claim set carries none of
`permissions`, `role`, `email`, `displayName` — but it does carry `user_id`,
a field it shares with access-token claim sets; the other four appear only
in access tokens. -/
theorem C7_refresh_claims_minimal (user : UserRec) (now : Int) (jti : String)
    (d m : Option Int) (s : AuthState) :
    ((create_refresh_token_for_user user now jti d s).1.token.payload.permissions = none) ∧
    ((create_refresh_token_for_user user now jti d s).1.token.payload.role = none) ∧
    ((create_refresh_token_for_user user now jti d s).1.token.payload.email = none) ∧
    ((create_refresh_token_for_user user now jti d s).1.token.payload.name = none) ∧
    ((create_refresh_token_for_user user now jti d s).1.token.payload.user_id
      = some user.id) ∧
    ((create_access_token_for_user user now jti m s).1.token.payload.permissions ≠ none) ∧
    ((create_access_token_for_user user now jti m s).1.token.payload.role ≠ none) ∧
    ((create_access_token_for_user user now jti m s).1.token.payload.email ≠ none) ∧
    ((create_access_token_for_user user now jti m s).1.token.payload.name ≠ none) ∧
    ((create_access_token_for_user user now jti m s).1.token.payload.user_id
      = some user.id) := by
  refine ⟨rfl, rfl, rfl, rfl, rfl, ?_, ?_, ?_, ?_, rfl⟩ <;>
    simp [create_access_token_for_user]

/-- Marking the first matching record revoked updates exactly the record
that `find?` returns. -/
theorem find?_markRevokedFirst (l : List TokenRecord) (j : String) :
    (markRevokedFirst l j).find? (fun t => t.jti == j)
      = (l.find? (fun t => t.jti == j)).map (fun t => { t with revoked := true }) := by
  induction l with
  | nil => rfl
  | cons r rs ih =>
    by_cases h : r.jti = j
    · have hb : (r.jti == j) = true := beq_iff_eq.mpr h
      simp [markRevokedFirst, List.find?_cons_of_pos, hb]
    · have hb : (r.jti == j) = false := by simp [h]
      simp [markRevokedFirst, hb, List.find?_cons_of_neg, ih]

/-- C8: revoking, through the admin endpoint, a tokenId whose store record
is already `revoked = true` does not error — it succeeds again — and leaves
the record's `revoked` flag `true`. -/
theorem C8_admin_revoke_idempotent (j : String) (cookie : Jwt) (now : Int)
    (s : AuthState) (r : TokenRecord)
    (hsig : cookie.sigValid = true) (hnbf : cookie.payload.nbf ≤ now)
    (hexp : now ≤ cookie.payload.exp) (haud : cookie.payload.aud = AUDIENCE)
    (hiss : cookie.payload.iss = ISSUER)
    (hnotrev : cookie.payload.jti ∉ s.revokedJtis)
    (hadmin : cookie.payload.role = some "admin")
    (hfound : s.store.find? (fun t => t.jti == j) = some r)
    (_hrev : r.revoked = true) :
    (admin_revoke j (some cookie) now s).1 = .ok () ∧
    ((admin_revoke j (some cookie) now s).2.store.find? (fun t => t.jti == j)).map
      TokenRecord.revoked = some true := by
  have hv := verify_ok_char cookie now s hsig hnbf hexp haud hiss hnotrev
  simp only [admin_revoke, hv, hadmin, hfound, ne_eq, not_true_eq_false,
    if_false, find?_markRevokedFirst]
  exact ⟨trivial, rfl⟩

/-- C8, witnessed: an admin re-revokes the already-revoked record `t1`;
the call returns success and the record stays revoked. -/
theorem C8_witness :
    (admin_revoke "t1" (some adminTok) 50 sRevokedStore).1 = .ok () ∧
    ((admin_revoke "t1" (some adminTok) 50 sRevokedStore).2.store.find?
        (fun t => t.jti == "t1")).map TokenRecord.revoked = some true :=
  C8_admin_revoke_idempotent "t1" adminTok 50 sRevokedStore
    { user_id := 1, jti := "t1", token_type := "access",
      expires_at := 100000, revoked := true }
    (by decide) (by decide) (by decide) (by decide) (by decide) (by decide)
    (by decide) (by decide) (by decide)

/-- C9: issuing an access token for a user and immediately verifying it (at
the issuing instant, with a fresh jti) succeeds and returns the claim set,
whose subject is `user_<id>`, whose `user_id` is the user's id, and whose
permissions are the user's permission set, defaulting to `["read_post"]`
when the user has none. -/
theorem C9_issue_then_verify (user : UserRec) (now : Int) (jti : String)
    (s : AuthState) (hfresh : jti ∉ s.revokedJtis) :
    (verify_jwt_token_strict
        (some (create_access_token_for_user user now jti none s).1.token) now true true
        (create_access_token_for_user user now jti none s).2).1
      = .ok (create_access_token_for_user user now jti none s).1.token.payload ∧
    (create_access_token_for_user user now jti none s).1.token.payload.sub
      = "user_" ++ toString user.id ∧
    (create_access_token_for_user user now jti none s).1.token.payload.user_id
      = some user.id ∧
    (create_access_token_for_user user now jti none s).1.token.payload.permissions
      = some (if user.permissions = [] then ["read_post"] else user.permissions) := by
  refine ⟨?_, rfl, rfl, rfl⟩
  have hexp : now ≤ now + 60 * pyOrInt none ACCESS_TOKEN_EXP_MIN := by
    simp only [pyOrInt, ACCESS_TOKEN_EXP_MIN]
    omega
  rw [verify_ok_char _ now _ rfl (le_refl now) hexp rfl rfl hfresh]

/-- C9, witnessed for alice (no explicit permissions) at time 1000. -/
theorem C9_witness :
    (verify_jwt_token_strict
        (some (create_access_token_for_user alice 1000 "a1" none s0).1.token) 1000 true true
        (create_access_token_for_user alice 1000 "a1" none s0).2).1
      = .ok (create_access_token_for_user alice 1000 "a1" none s0).1.token.payload ∧
    (create_access_token_for_user alice 1000 "a1" none s0).1.token.payload.sub
      = "user_" ++ toString alice.id ∧
    (create_access_token_for_user alice 1000 "a1" none s0).1.token.payload.user_id
      = some alice.id ∧
    (create_access_token_for_user alice 1000 "a1" none s0).1.token.payload.permissions
      = some (if alice.permissions = [] then ["read_post"] else alice.permissions) :=
  C9_issue_then_verify alice 1000 "a1" s0 (by decide)

/-- C10: a logout request whose refresh-token cookie is present but whose
access-token cookie is absent or fails to decode performs no revocation at
all — the shared state is returned untouched — and still responds with the
redirect that deletes both cookies, reporting no error. -/
theorem C10_logout_aborts_without_access (rtok : Jwt) (access : Option Jwt)
    (now : Int) (s : AuthState)
    (hbad : ∀ a, access = some a → ∃ e, jwtDecode a now (some AUDIENCE) = .error e) :
    logout (some rtok) access now s
      = ({ redirectTo := "/", deletedCookies := ["access_token", "refresh_token"] }, s) := by
  simp only [logout]
  cases hr : jwtDecode rtok now (some AUDIENCE) with
  | error e => rfl
  | ok rp =>
    cases access with
    | none => rfl
    | some a =>
      obtain ⟨e, he⟩ := hbad a rfl
      simp only [he]

/-- C10, witnessed: alice's logout at time 1001 with her refresh cookie but
no access cookie leaves the post-login state untouched and redirects. -/
theorem C10_witness :
    logout (some loginRefresh.1.token) none 1001 loginRefresh.2
      = ({ redirectTo := "/", deletedCookies := ["access_token", "refresh_token"] },
         loginRefresh.2) :=
  C10_logout_aborts_without_access loginRefresh.1.token none 1001 loginRefresh.2
    (fun _ h => Option.noConfusion h)
